import Mathlib

/-!
Shallow embedding of the QuitCoach achievement engine
(`src/services/dailyLogs.js`, `src/services/badges.js`).

Modelling conventions:
* JavaScript `Number` values coming from profile/log fields are modelled as `ℚ`
  (exact arithmetic; the code never produces a NaN on the modelled paths because
  every division is guarded by a truthiness check on the divisor).
* ISO-8601 calendar dates (`YYYY-MM-DD` strings) are modelled by their day
  index `isoDay y m d : ℕ` (proleptic Gregorian day count).  For well-formed
  ISO strings, lexicographic string order coincides with numeric order of the
  day index, the calendar successor is `+ 1`, and whole-day differences are
  numeric differences.
* A missing / `undefined` JS field is `Option.none`; JS string falsiness is
  modelled by the empty string `""`.
* Asynchronous store operations are explicit state passing; operations that can
  reject are `Except JsError`.
-/

namespace QuitCoach

/-- Day index of the proleptic Gregorian date `y-m-d` (days since 0000-03-01,
Hinnant's civil-from-days algorithm restricted to `y ≥ 1`).  Only used to give
concrete ISO dates from the spec a concrete day index. -/
def isoDay (y m d : Nat) : Nat :=
  let y' := if m ≤ 2 then y - 1 else y
  let era := y' / 400
  let yoe := y' % 400
  let mp  := if m > 2 then m - 3 else m + 9
  let doy := (153 * mp + 2) / 5 + d - 1
  let doe := yoe * 365 + yoe / 4 - yoe / 100 + doy
  era * 146097 + doe

/-! ## Daily logs (`src/services/dailyLogs.js`) -/

/-- A stored daily-log document `users/{uid}/dailyLogs/{date}` (the fields the
streak computation reads). -/
structure DailyLog where
  date : Nat
  cigarettes_smoked : ℚ
  smoke_free : Bool
deriving DecidableEq, Repr

/-- Result of `computeStreakFromQuit`. -/
structure StreakResult where
  current_streak_days : Int
  streak_start_date : Option Nat
  last_slip_date : Option Nat
deriving DecidableEq, Repr

/-- Maximum of a list of day indices (`orderBy date desc, limit 1` over the
matching documents), `none` when no document matches. -/
def maxDate? : List Nat → Option Nat
  | [] => none
  | d :: ds =>
    match maxDate? ds with
    | none => some d
    | some m => some (max d m)

/-- Merge of two optional day indices by taking the later one (the JS pushes
the present candidates into an array, sorts it descending and takes the
head). -/
def optMax : Option Nat → Option Nat → Option Nat
  | none, none => none
  | some a, none => some a
  | none, some b => some b
  | some a, some b => some (max a b)

/-- `computeStreakFromQuit(uid, quitIso, todayIso)` from
`src/services/dailyLogs.js` lines 72–130.  `logs` is the user's
`dailyLogs` collection; `quitIso = none` models a falsy `quitIso` argument.
The two Firestore queries (`smoke_free == false` resp. `cigarettes_smoked > 0`,
both restricted to `quitIso ≤ date ≤ todayIso`, ordered by `date` descending
with `limit 1`) become `maxDate?` over the corresponding filters; the two
candidates are then merged by taking the larger (the JS sorts the candidate
array descending and takes the head). -/
def computeStreakFromQuit (logs : List DailyLog) (quitIso : Option Nat)
    (todayIso : Nat) : StreakResult :=
  match quitIso with
  | none => { current_streak_days := 0, streak_start_date := none, last_slip_date := none }
  | some quit =>
    let slipFlag := maxDate? ((logs.filter
      (fun e => !e.smoke_free && decide (quit ≤ e.date) && decide (e.date ≤ todayIso))).map (·.date))
    let slipCigs := maxDate? ((logs.filter
      (fun e => decide (e.cigarettes_smoked > 0) && decide (quit ≤ e.date) && decide (e.date ≤ todayIso))).map (·.date))
    let lastSlip : Option Nat := optMax slipFlag slipCigs
    let startIso : Nat :=
      match lastSlip with
      | none => quit
      | some s => s + 1
    let diffDays : Int := max 0 ((todayIso : Int) - (startIso : Int))
    { current_streak_days := diffDays,
      streak_start_date := some startIso,
      last_slip_date := lastSlip }

/-- Caller-supplied payload of `upsertDailyLog` (the fields the normalization
reads).  `smoke_free = none` models any non-boolean value (including a missing
field), matching the `typeof data?.smoke_free === "boolean"` test. -/
structure DailyLogInput where
  cigarettes_smoked : Option ℚ
  smoke_free : Option Bool
deriving DecidableEq, Repr

/-- The normalized fields `upsertDailyLog` writes (the `setDoc … {merge:true}`
always overwrites `date`, `cigarettes_smoked` and `smoke_free`, so these are
the stored values after the write). -/
structure NormalizedLog where
  date : Nat
  cigarettes_smoked : ℚ
  smoke_free : Bool
deriving DecidableEq, Repr

/-- `upsertDailyLog(uid, date, data)` from `src/services/dailyLogs.js`
lines 38–60, restricted to the normalized fields it writes:
`cigCount = Number(data?.cigarettes_smoked ?? 0)`, and `smoke_free` is the
caller's boolean AND `cigCount === 0` when a boolean was passed, else inferred
as `cigCount === 0`. -/
def upsertDailyLog (date : Nat) (data : DailyLogInput) : NormalizedLog :=
  let cigCount := data.cigarettes_smoked.getD 0
  { date := date,
    cigarettes_smoked := cigCount,
    smoke_free :=
      match data.smoke_free with
      | some b => b && decide (cigCount = 0)
      | none => decide (cigCount = 0) }

/-! ## Profile and savings (`src/services/badges.js`) -/

/-- The user-profile fields read by the badge evaluator. -/
structure Profile where
  cigarettes_per_day_before : Option ℚ := none
  cost_per_pack : Option ℚ := none
  cigarettes_per_pack : Option ℚ := none
  quit_date : Option Nat := none
  createdAt : Bool := false
  ai_messages_count : Option ℚ := none
  audio_sessions_count : Option ℚ := none
  health_stage_id : Option String := none
deriving DecidableEq, Repr

/-- `Number(x || dflt)`: a missing or zero (falsy) numeric field falls back to
the default. -/
def numOr (x : Option ℚ) (dflt : ℚ) : ℚ :=
  match x with
  | none => dflt
  | some v => if v = 0 then dflt else v

/-- JavaScript `Math.round`: round half toward `+∞`, i.e. `⌊x + 1/2⌋`. -/
def jsRound (x : ℚ) : Int := Rat.floor (x + 1/2)

/-- `computeSavingsEuros(profile, streakDays)` from `src/services/badges.js`
lines 238–245: `cpd = Number(profile?.cigarettes_per_day_before || 0)`,
`pricePerPack = Number(profile?.cost_per_pack || 0)`,
`cigsPerPack = Number(profile?.cigarettes_per_pack || 20)`; returns `0` when
any of the three is falsy, otherwise
`Math.round(cpd / cigsPerPack * pricePerPack * streakDays)`. -/
def computeSavingsEuros (profile : Option Profile) (streakDays : ℚ) : Int :=
  let cpd := numOr (profile.bind (·.cigarettes_per_day_before)) 0
  let pricePerPack := numOr (profile.bind (·.cost_per_pack)) 0
  let cigsPerPack := numOr (profile.bind (·.cigarettes_per_pack)) 20
  if cigsPerPack = 0 ∨ pricePerPack = 0 ∨ cpd = 0 then 0
  else jsRound (cpd / cigsPerPack * pricePerPack * streakDays)

/-! ## Unlock transaction (`src/services/badges.js`, `unlock`) -/

/-- A `users/{uid}/badges/{badgeId}` document:
`{ unlockedAt: TS, seen: bool }`. -/
structure AchRecord where
  unlockedAt : Nat
  seen : Bool
deriving DecidableEq, Repr

/-- The badge store: association list from `(uid, badgeId)` to the badge
document.  `tx.get` is the first association for the key; `tx.set` on an
absent key prepends. -/
def Store := List ((String × String) × AchRecord)

/-- `tx.get(ref)`: the record currently stored at `(uid, badgeId)`. -/
def Store.lookup : Store → String × String → Option AchRecord
  | [], _ => none
  | (k', v) :: t, k => if k = k' then some v else Store.lookup t k

/-- Number of records stored under a key (used to state "at most one record
per `(userId, achievementId)`"). -/
def Store.countKey : Store → String × String → Nat
  | [], _ => 0
  | (k', _) :: t, k => (if k' = k then 1 else 0) + Store.countKey t k

/-- Result object of `unlock`: `{ id, skipped?, deduped? }`. -/
structure UnlockResult where
  id : String
  skipped : Option String := none
  deduped : Bool := false
deriving DecidableEq, Repr

/-- A notification attempt made by `unlock`: the server route
`notifyBadgeUnlocked` or the local fallback `createAndPushNotification`. -/
inductive NotifyAttempt where
  | server (badgeId : String)
  | localFallback (badgeId : String)
deriving DecidableEq, Repr

/-- Full outcome of one `unlock` call: the returned object, the store after
the call, and the notification attempts it made (in order). -/
structure UnlockOutcome where
  res : UnlockResult
  store : Store
  notifs : List NotifyAttempt

/-- `unlock(uid, badgeId)` from `src/services/badges.js` lines 174–224.

* `uid`/`badgeId` empty models a falsy argument (`skipped: "missing"`).
* `inFlight` is the session-level `inFlightUnlocks` set as seen at entry; the
  function adds the id and removes it in `finally`, so the set is unchanged
  across a completed call and is passed as a read-only parameter.
* The `runTransaction` body is atomic: it reads the record and writes only if
  absent (`seen: false`, `unlockedAt` = current server time `now`).
* `serverOk` / `localOk` say whether the awaited `notifyBadgeUnlocked` resp.
  `createAndPushNotification` calls resolve or reject; both rejections are
  caught (`console.warn`) and never affect the returned object or the store. -/
def unlock (uid badgeId : String) (inFlight : List String) (store : Store)
    (now : Nat) (serverOk localOk : Bool) : UnlockOutcome :=
  if uid = "" ∨ badgeId = "" then
    { res := { id := badgeId, skipped := some "missing" }, store := store, notifs := [] }
  else if badgeId ∈ inFlight then
    { res := { id := badgeId, skipped := some "inflight" }, store := store, notifs := [] }
  else
    -- runTransaction: read, write only if absent
    match store.lookup (uid, badgeId) with
    | some _ =>
      -- wrote = false ⟶ { id, deduped: true }, no notification path
      { res := { id := badgeId, deduped := true }, store := store, notifs := [] }
    | none =>
      let store' : Store := ((uid, badgeId), { unlockedAt := now, seen := false }) :: store
      if serverOk then
        { res := { id := badgeId }, store := store', notifs := [.server badgeId] }
      else
        -- server route rejected: warn, then try the local fallback once;
        -- its own rejection is caught and ignored
        { res := { id := badgeId }, store := store',
          notifs := [.server badgeId, .localFallback badgeId] }

/-- Parameters of one `unlock` call that vary between calls: the server
timestamp and the two notification outcomes. -/
structure CallParams where
  now : Nat
  serverOk : Bool
  localOk : Bool

/-- The store after a sequence of `unlock` calls for the same
`(uid, badgeId)` (each call completed, so `inFlightUnlocks` is empty at each
entry). -/
def runUnlocks (uid badgeId : String) (calls : List CallParams) (store : Store) : Store :=
  calls.foldl (fun st c => (unlock uid badgeId [] st c.now c.serverOk c.localOk).store) store

/-! ## Leaderboard ranker (`src/services/badges.js`, `getLeaderboardRankTop3`) -/

/-- A `leaderboard/{docId}` row (the fields the ranker reads). -/
structure LeaderboardRow where
  id : String
  uid : Option String := none
  points : ℚ := 0
  streak : ℚ := 0
  saved : ℚ := 0
deriving DecidableEq, Repr

/-- The three metric fields `evaluateAndUnlockBadges` ranks on. -/
inductive LbField where
  | points | streak | saved
deriving DecidableEq, Repr

/-- Value of a metric field on a row. -/
def fieldVal (f : LbField) (r : LeaderboardRow) : ℚ :=
  match f with
  | .points => r.points
  | .streak => r.streak
  | .saved => r.saved

/-- `row.uid || docSnap.id`: the explicit `uid` field when truthy, else the
document id. -/
def docUid (r : LeaderboardRow) : String :=
  match r.uid with
  | some u => if u = "" then r.id else u
  | none => r.id

/-- The descending order `orderBy(field, "desc")` ranks by. -/
def fieldGE (f : LbField) (a b : LeaderboardRow) : Prop :=
  fieldVal f b ≤ fieldVal f a

instance (f : LbField) : DecidableRel (fieldGE f) :=
  fun a b => inferInstanceAs (Decidable (fieldVal f b ≤ fieldVal f a))

/-- `orderBy(field, "desc")`: stable descending sort of the row set (ties keep
the store's order for the read, which the spec leaves unspecified). -/
def sortDesc (f : LbField) (rows : List LeaderboardRow) : List LeaderboardRow :=
  List.insertionSort (fieldGE f) rows

/-- The `snap.forEach` loop of `getLeaderboardRankTop3`: `pos` is incremented
for each row, and `rank` is set to the first position whose `docUid` matches. -/
def rankLoop (uid : String) : List LeaderboardRow → Nat → Option Nat
  | [], _ => none
  | r :: rs, pos => if docUid r = uid then some (pos + 1) else rankLoop uid rs (pos + 1)

/-- `getLeaderboardRankTop3(field, uid)` from `src/services/badges.js`
lines 135–148: query the rows ordered descending by `field` with `limit(3)`,
then report the 1-based position of the first row whose `docUid` equals
`uid`, else `null`. -/
def getLeaderboardRankTop3 (f : LbField) (uid : String)
    (rows : List LeaderboardRow) : Option Nat :=
  rankLoop uid ((sortDesc f rows).take 3) 0

/-! ## Badge evaluator (`src/services/badges.js`, `evaluateAndUnlockBadges`) -/

/-- A rejected promise / thrown Firestore error: its `code` property and
`message` string. -/
structure JsError where
  code : Option String := none
  msg : String := ""
deriving DecidableEq, Repr

/-- JS `haystack.includes(needle)` for the message test. -/
def strIncludes (haystack needle : String) : Bool :=
  decide (2 ≤ (haystack.splitOn needle).length)

/-- The sign-out test used by the top-level and per-condition catch blocks:
`e?.code === "permission-denied" || String(e?.message || "").includes("insufficient permissions")`. -/
def isPermissionDenied (e : JsError) : Bool :=
  decide (e.code = some "permission-denied") || strIncludes e.msg "insufficient permissions"

/-- `HEALTH_STAGE_RANK` from `src/services/badges.js` lines 126–130. -/
def HEALTH_STAGE_RANK (stage : String) : Option Int :=
  if stage = "wk2_to_wk12" then some 4
  else if stage = "mo1" then some 5
  else if stage = "mo6" then some 7
  else none

/-- The metric snapshot the condition table closes over. -/
structure Metrics where
  hasCreatedAt : Bool := false
  streakDays : Int := 0
  logsCount : Nat := 0
  aiCount : ℚ := 0
  hypCount : ℚ := 0
  savings : Int := 0
  pointsRank : Option Nat := none
  streakRank : Option Nat := none
  savedRank : Option Nat := none
  completedChallenges : Nat := 0
  healthRank : Int := -1
deriving DecidableEq, Repr

/-- The `conditions` table of `evaluateAndUnlockBadges`
(`src/services/badges.js` lines 313–382), in source order, with each closure
evaluated against the metric snapshot. -/
def conditionsTable (m : Metrics) : List (String × Bool) :=
  [ ("welcome", m.hasCreatedAt),
    ("streak1", decide (m.streakDays ≥ 1)),
    ("streak2", decide (m.streakDays ≥ 2)),
    ("streak3", decide (m.streakDays ≥ 3)),
    ("streak5", decide (m.streakDays ≥ 5)),
    ("streak10", decide (m.streakDays ≥ 10)),
    ("streak20", decide (m.streakDays ≥ 20)),
    ("streak30", decide (m.streakDays ≥ 30)),
    ("streak50", decide (m.streakDays ≥ 50)),
    ("streak75", decide (m.streakDays ≥ 75)),
    ("streak100", decide (m.streakDays ≥ 100)),
    ("streak200", decide (m.streakDays ≥ 200)),
    ("streak365", decide (m.streakDays ≥ 365)),
    ("streak500", decide (m.streakDays ≥ 500)),
    ("streak600", decide (m.streakDays ≥ 600)),
    ("streak700", decide (m.streakDays ≥ 700)),
    ("streak800", decide (m.streakDays ≥ 800)),
    ("streak900", decide (m.streakDays ≥ 900)),
    ("streak1000", decide (m.streakDays ≥ 1000)),
    ("log", decide (m.logsCount ≥ 10)),
    ("log2", decide (m.logsCount ≥ 30)),
    ("log3", decide (m.logsCount ≥ 100)),
    ("ai1", decide (m.aiCount ≥ 10)),
    ("ai2", decide (m.aiCount ≥ 30)),
    ("ai3", decide (m.aiCount ≥ 100)),
    ("hypnosis1", decide (m.hypCount ≥ 2)),
    ("hypnosis2", decide (m.hypCount ≥ 6)),
    ("hypnosis3", decide (m.hypCount ≥ 10)),
    ("saving", decide (m.savings ≥ 100)),
    ("saving2", decide (m.savings ≥ 500)),
    ("saving3", decide (m.savings ≥ 1000)),
    ("leader_points_1", decide (m.pointsRank = some 1)),
    ("leader_points_2", decide (m.pointsRank = some 2)),
    ("leader_points_3", decide (m.pointsRank = some 3)),
    ("leader_streak_1", decide (m.streakRank = some 1)),
    ("leader_streak_2", decide (m.streakRank = some 2)),
    ("leader_streak_3", decide (m.streakRank = some 3)),
    ("leader_saved_1", decide (m.savedRank = some 1)),
    ("leader_saved_2", decide (m.savedRank = some 2)),
    ("leader_saved_3", decide (m.savedRank = some 3)),
    ("challenge30", decide (m.completedChallenges ≥ 30)),
    ("challenge60", decide (m.completedChallenges ≥ 60)),
    ("challenge90", decide (m.completedChallenges ≥ 90)),
    ("health", decide (m.healthRank ≥ 4)),
    ("health2", decide (m.healthRank ≥ 5)),
    ("health3", decide (m.healthRank ≥ 7)) ]

/-- First association for a badge id in the condition table. -/
def lookupCond : List (String × Bool) → String → Option Bool
  | [], _ => none
  | (k, v) :: t, id => if id = k then some v else lookupCond t id

/-- Truth of one condition of the table at a snapshot. -/
def condHolds (m : Metrics) (id : String) : Bool :=
  (lookupCond (conditionsTable m) id).getD false

/-- Environment of one evaluation pass: the authenticated user and the result
of each awaited store operation (each may reject independently, modelling a
sign-out between steps). -/
structure EvalEnv where
  authUid : Option String := none
  profileRes : Except JsError (Option Profile) := .ok none
  dailyLogsRes : Except JsError (List DailyLog) := .ok []
  todayIso : Nat := 0
  countLogsRes : Except JsError Nat := .ok 0
  challengeRes : Except JsError Nat := .ok 0
  rankRes : LbField → Except JsError (Option Nat) := fun _ => .ok none
  isUnlockedRes : String → Except JsError Bool := fun _ => .ok true
  unlockRes : String → Except JsError UnlockResult := fun id => .ok { id := id }

/-- The condition loop of `evaluateAndUnlockBadges`
(`src/services/badges.js` lines 384–402): for each `(id, check)` in order,
`if (!(await isUnlocked(uid, id)) && check()) { await unlock(uid, id);
newlyUnlocked.push(id) }`; a rejection inside an iteration is caught —
permission-denied returns `newlyUnlocked` as accumulated so far, any other
error is logged and the loop continues. -/
def runConditions (env : EvalEnv) :
    List (String × Bool) → List String → List String
  | [], acc => acc
  | (id, check) :: rest, acc =>
    match env.isUnlockedRes id with
    | .error e =>
      if isPermissionDenied e then acc else runConditions env rest acc
    | .ok unlocked =>
      if !unlocked && check then
        match env.unlockRes id with
        | .error e =>
          if isPermissionDenied e then acc else runConditions env rest acc
        | .ok _ => runConditions env rest (acc ++ [id])
      else runConditions env rest acc

/-- The remainder of an evaluation pass after `completedChallenges` is
settled: the three leaderboard-rank reads (a rejection there reaches the
top-level catch of `evaluateAndUnlockBadges` and yields `[]`), then the
condition loop over the table. -/
def evalWithChallenges (env : EvalEnv) (profile : Option Profile)
    (streakDays : Int) (logsCount : Nat) (aiCount hypCount : ℚ)
    (savings : Int) (healthRank : Int) (completedChallenges : Nat) : List String :=
  match env.rankRes .points with
  | .error _ => []
  | .ok pointsRank =>
    match env.rankRes .streak with
    | .error _ => []
    | .ok streakRank =>
      match env.rankRes .saved with
      | .error _ => []
      | .ok savedRank =>
        let m : Metrics :=
          { hasCreatedAt := (profile.map (·.createdAt)).getD false,
            streakDays := streakDays, logsCount := logsCount,
            aiCount := aiCount, hypCount := hypCount, savings := savings,
            pointsRank := pointsRank, streakRank := streakRank,
            savedRank := savedRank,
            completedChallenges := completedChallenges,
            healthRank := healthRank }
        runConditions env (conditionsTable m) []

/-- `evaluateAndUnlockBadges(uid)` from `src/services/badges.js`
lines 267–413.

* Bails with `[]` when `uid` is falsy or differs from the authenticated uid.
* Every pre-loop read failure returns `[]` through the top-level catch
  (permission-denied quietly, anything else with a `console.warn`).
* The inner challenge-count catch returns `[]` only for
  `e?.code === "permission-denied"` (the message is not inspected there) and
  otherwise continues with `completedChallenges = 0`.
* The metric snapshot is computed exactly as in the source, reusing
  `computeStreakFromQuit` and `computeSavingsEuros`. -/
def evaluateAndUnlockBadges (uid : String) (env : EvalEnv) : List String :=
  if uid = "" ∨ env.authUid ≠ some uid then []
  else
    match env.profileRes with
    | .error _ => []
    | .ok profile =>
      let quitIso := profile.bind (·.quit_date)
      match env.dailyLogsRes with
      | .error _ => []
      | .ok logs =>
        let streak := computeStreakFromQuit logs quitIso env.todayIso
        let streakDays := streak.current_streak_days
        match env.countLogsRes with
        | .error _ => []
        | .ok logsCount =>
          let aiCount := numOr (profile.bind (·.ai_messages_count)) 0
          let hypCount := numOr (profile.bind (·.audio_sessions_count)) 0
          let savings := computeSavingsEuros profile (streakDays : ℚ)
          let healthStageId := (profile.bind (·.health_stage_id)).getD ""
          let healthRank := (HEALTH_STAGE_RANK healthStageId).getD (-1)
          match env.challengeRes with
          | .error e =>
            if e.code = some "permission-denied" then []
            else
              evalWithChallenges env profile streakDays logsCount aiCount
                hypCount savings healthRank 0
          | .ok completedChallenges =>
            evalWithChallenges env profile streakDays logsCount aiCount
              hypCount savings healthRank completedChallenges

/-! ## Specification-side definitions (for refinement statements) -/

/-- The savings formula in the spec's phrasing, amended at the pack-size
guard: `round(streakDays * (cigarettesPerDayBefore / cigarettesPerPack) *
costPerPack)` where a missing or zero `cigarettesPerPack` falls back to the
default pack size 20, and the amount is `0` when `cigarettesPerDayBefore` or
`costPerPack` is missing or zero. -/
def savingsAmountAmended (profile : Option Profile) (streakDays : ℚ) : Int :=
  let cpd := numOr (profile.bind (·.cigarettes_per_day_before)) 0
  let cost := numOr (profile.bind (·.cost_per_pack)) 0
  let pack := numOr (profile.bind (·.cigarettes_per_pack)) 20
  if cpd = 0 ∨ cost = 0 then 0
  else jsRound (streakDays * (cpd / pack) * cost)

/-- The spec's characterization of the last slip: the maximum log date in
`[quitDate, today]` (inclusive) whose entry has `smoke_free == false` OR
`cigarettes_smoked > 0`. -/
def slipSpec (logs : List DailyLog) (quit today : Nat) : Option Nat :=
  maxDate? ((logs.filter (fun e =>
    (!e.smoke_free || decide (0 < e.cigarettes_smoked))
      && decide (quit ≤ e.date) && decide (e.date ≤ today))).map (·.date))

/-- The spec's characterization of the top-3 rank: the 1-based position of
the first row among the first three of the descending-ordered row set whose
uid matches, else `null`. -/
def rankSpecTop3 (f : LbField) (uid : String) (rows : List LeaderboardRow) : Option Nat :=
  (((sortDesc f rows).take 3).findIdx? (fun r => decide (docUid r = uid))).map (· + 1)

/-! ## Concrete scenarios used by counterexamples and witnesses -/

/-- Daily logs of the spec's slip-retroactivity scenario: smoke-free entries
for 2024-01-01 … 2024-01-10 except a slip (`cigarettes_smoked = 2`) on
2024-01-05. -/
def exampleLogs : List DailyLog :=
  (List.range 10).map (fun i =>
    if i = 4 then { date := isoDay 2024 1 (i + 1), cigarettes_smoked := 2, smoke_free := false }
    else { date := isoDay 2024 1 (i + 1), cigarettes_smoked := 0, smoke_free := true })

/-- An evaluation environment in which the user signs out after the first
unlock of the pass succeeds: the `welcome` condition is met and its unlock
completes, then the `isUnlocked` read for the next condition rejects with
`permission-denied`. -/
def signOutMidLoopEnv : EvalEnv :=
  { authUid := some "u1",
    profileRes := .ok (some { createdAt := true, quit_date := some 0 }),
    dailyLogsRes := .ok [],
    todayIso := 3,
    countLogsRes := .ok 0,
    challengeRes := .ok 0,
    rankRes := fun _ => .ok none,
    isUnlockedRes := fun id =>
      if id = "welcome" then .ok false
      else .error { code := some "permission-denied" },
    unlockRes := fun id => .ok { id := id } }

/-- A store already holding the `streak1` badge for user `u1`. -/
def storeWithStreak1 : Store := [(("u1", "streak1"), { unlockedAt := 3, seen := false })]

/-- A profile whose `cigarettes_per_pack` is explicitly `0` (10 cigarettes a
day before quitting, €5 a pack). -/
def profileZeroPack : Profile :=
  { cigarettes_per_day_before := some 10, cost_per_pack := some 5,
    cigarettes_per_pack := some 0 }

/-- A profile with a negative `cost_per_pack`. -/
def profileNegCost : Profile :=
  { cigarettes_per_day_before := some 10, cost_per_pack := some (-5),
    cigarettes_per_pack := some 20 }

/-- An evaluation environment whose very first read (the user profile)
rejects with `permission-denied`: the user signed out before the pass could
compute any metric. -/
def profileErrorEnv : EvalEnv :=
  { authUid := some "u1",
    profileRes := .error { code := some "permission-denied" } }

/-! ## Lemmas about the unlock transaction -/

theorem unlock_eq_of_missing (uid b : String) (inF : List String) (store : Store)
    (now : Nat) (sOk lOk : Bool) (h : uid = "" ∨ b = "") :
    unlock uid b inF store now sOk lOk
      = { res := { id := b, skipped := some "missing" }, store := store, notifs := [] } := by
  unfold unlock
  rw [if_pos h]

theorem unlock_eq_of_inflight (uid b : String) (inF : List String) (store : Store)
    (now : Nat) (sOk lOk : Bool) (hm : ¬(uid = "" ∨ b = "")) (hf : b ∈ inF) :
    unlock uid b inF store now sOk lOk
      = { res := { id := b, skipped := some "inflight" }, store := store, notifs := [] } := by
  unfold unlock
  rw [if_neg hm, if_pos hf]

theorem unlock_eq_of_found (uid b : String) (inF : List String) (store : Store)
    (now : Nat) (sOk lOk : Bool) (r : AchRecord)
    (hm : ¬(uid = "" ∨ b = "")) (hf : b ∉ inF)
    (h : store.lookup (uid, b) = some r) :
    unlock uid b inF store now sOk lOk
      = { res := { id := b, deduped := true }, store := store, notifs := [] } := by
  unfold unlock
  rw [if_neg hm, if_neg hf, h]

theorem unlock_eq_of_absent (uid b : String) (inF : List String) (store : Store)
    (now : Nat) (sOk lOk : Bool)
    (hm : ¬(uid = "" ∨ b = "")) (hf : b ∉ inF)
    (h : store.lookup (uid, b) = none) :
    unlock uid b inF store now sOk lOk
      = { res := { id := b },
          store := ((uid, b), { unlockedAt := now, seen := false }) :: store,
          notifs := if sOk then [.server b] else [.server b, .localFallback b] } := by
  unfold unlock
  rw [if_neg hm, if_neg hf, h]
  cases sOk <;> rfl

theorem lookup_none_iff_countKey_zero (s : Store) (k : String × String) :
    s.lookup k = none ↔ s.countKey k = 0 := by
  induction s with
  | nil => simp [Store.lookup, Store.countKey]
  | cons e t ih =>
    obtain ⟨k', v⟩ := e
    by_cases h : k = k'
    · subst h
      simp [Store.lookup, Store.countKey]
    · have h' : ¬k' = k := fun hh => h hh.symm
      simp [Store.lookup, Store.countKey, h, h', ih]

theorem unlock_countKey_le_one (uid b : String) (inF : List String) (store : Store)
    (now : Nat) (sOk lOk : Bool)
    (h : store.countKey (uid, b) ≤ 1) :
    ((unlock uid b inF store now sOk lOk).store).countKey (uid, b) ≤ 1 := by
  by_cases hm : uid = "" ∨ b = ""
  · rw [unlock_eq_of_missing uid b inF store now sOk lOk hm]; exact h
  · by_cases hf : b ∈ inF
    · rw [unlock_eq_of_inflight uid b inF store now sOk lOk hm hf]; exact h
    · cases hl : store.lookup (uid, b) with
      | some r => rw [unlock_eq_of_found uid b inF store now sOk lOk r hm hf hl]; exact h
      | none =>
        rw [unlock_eq_of_absent uid b inF store now sOk lOk hm hf hl]
        have h0 : store.countKey (uid, b) = 0 :=
          (lookup_none_iff_countKey_zero store (uid, b)).mp hl
        simp [Store.countKey, h0]

theorem unlock_lookup_some_after (uid b : String) (store : Store)
    (now : Nat) (sOk lOk : Bool) (hm : ¬(uid = "" ∨ b = "")) :
    ∃ r, ((unlock uid b [] store now sOk lOk).store).lookup (uid, b) = some r := by
  cases hl : store.lookup (uid, b) with
  | some r =>
    rw [unlock_eq_of_found uid b [] store now sOk lOk r hm (List.not_mem_nil b) hl]
    exact ⟨r, hl⟩
  | none =>
    rw [unlock_eq_of_absent uid b [] store now sOk lOk hm (List.not_mem_nil b) hl]
    exact ⟨{ unlockedAt := now, seen := false }, by simp [Store.lookup]⟩

/-! ## Claims about the unlock transaction -/

/-- C1: `unlock` checks existence and creates the record inside one atomic
transaction: a present record aborts the write with `deduped = true`, an
absent record is created with `unlockedAt = now` and `seen = false`; a second
call leaves the store unchanged, and any sequence of calls for the same
`(userId, achievementId)` leaves at most one record under that key. -/
theorem unlock_transactional_idempotent (uid b : String) (store : Store)
    (now now' : Nat) (sOk lOk sOk' lOk' : Bool)
    (hu : uid ≠ "") (hb : b ≠ "") :
    (∀ r, store.lookup (uid, b) = some r →
        (unlock uid b [] store now sOk lOk).res.deduped = true
          ∧ (unlock uid b [] store now sOk lOk).store = store)
  ∧ (store.lookup (uid, b) = none →
        (unlock uid b [] store now sOk lOk).res = { id := b }
          ∧ (unlock uid b [] store now sOk lOk).store
              = ((uid, b), { unlockedAt := now, seen := false }) :: store)
  ∧ ((unlock uid b [] (unlock uid b [] store now sOk lOk).store now' sOk' lOk').res.deduped
        = true
      ∧ (unlock uid b [] (unlock uid b [] store now sOk lOk).store now' sOk' lOk').store
          = (unlock uid b [] store now sOk lOk).store)
  ∧ (∀ calls : List CallParams, store.countKey (uid, b) ≤ 1 →
        (runUnlocks uid b calls store).countKey (uid, b) ≤ 1) := by
  have hm : ¬(uid = "" ∨ b = "") := by
    rintro (h | h) <;> [exact hu h; exact hb h]
  refine ⟨?_, ?_, ?_, ?_⟩
  · intro r hr
    rw [unlock_eq_of_found uid b [] store now sOk lOk r hm (List.not_mem_nil b) hr]
    exact ⟨rfl, rfl⟩
  · intro hn
    rw [unlock_eq_of_absent uid b [] store now sOk lOk hm (List.not_mem_nil b) hn]
    exact ⟨rfl, rfl⟩
  · obtain ⟨r, hr⟩ := unlock_lookup_some_after uid b store now sOk lOk hm
    rw [unlock_eq_of_found uid b [] _ now' sOk' lOk' r hm (List.not_mem_nil b) hr]
    exact ⟨rfl, rfl⟩
  · intro calls
    induction calls generalizing store with
    | nil => intro h; exact h
    | cons c cs ih =>
      intro h
      exact ih _ (unlock_countKey_le_one uid b [] store c.now c.serverOk c.localOk h)

theorem unlock_transactional_idempotent_witness :
    ((unlock "u1" "welcome" []
        (unlock "u1" "welcome" [] [] 1 true true).store 2 false false).res.deduped = true
      ∧ (unlock "u1" "welcome" []
          (unlock "u1" "welcome" [] [] 1 true true).store 2 false false).store
        = (unlock "u1" "welcome" [] [] 1 true true).store)
  ∧ (runUnlocks "u1" "welcome"
        [⟨1, true, true⟩, ⟨2, false, true⟩, ⟨3, true, false⟩] []).countKey
      ("u1", "welcome") ≤ 1 :=
  ⟨(unlock_transactional_idempotent "u1" "welcome" [] 1 2 true true false false
      (by decide) (by decide)).2.2.1,
   (unlock_transactional_idempotent "u1" "welcome" [] 1 2 true true false false
      (by decide) (by decide)).2.2.2
      [⟨1, true, true⟩, ⟨2, false, true⟩, ⟨3, true, false⟩] (by decide)⟩

/-- C5: when `unlock` reports `deduped = true` (the record already existed
and the transactional write was aborted), neither the server notification
route nor the local fallback is attempted, and the store is unchanged. -/
theorem unlock_dedup_no_notification (uid b : String) (inF : List String)
    (store : Store) (now : Nat) (sOk lOk : Bool)
    (h : (unlock uid b inF store now sOk lOk).res.deduped = true) :
    (unlock uid b inF store now sOk lOk).notifs = []
      ∧ (unlock uid b inF store now sOk lOk).store = store := by
  by_cases hm : uid = "" ∨ b = ""
  · rw [unlock_eq_of_missing uid b inF store now sOk lOk hm]
    exact ⟨rfl, rfl⟩
  · by_cases hf : b ∈ inF
    · rw [unlock_eq_of_inflight uid b inF store now sOk lOk hm hf]
      exact ⟨rfl, rfl⟩
    · cases hl : store.lookup (uid, b) with
      | some r =>
        rw [unlock_eq_of_found uid b inF store now sOk lOk r hm hf hl]
        exact ⟨rfl, rfl⟩
      | none =>
        rw [unlock_eq_of_absent uid b inF store now sOk lOk hm hf hl] at h
        simp at h

theorem unlock_dedup_no_notification_witness :
    (unlock "u1" "streak1" [] storeWithStreak1 9 true true).notifs = []
      ∧ (unlock "u1" "streak1" [] storeWithStreak1 9 true true).store = storeWithStreak1 :=
  unlock_dedup_no_notification "u1" "streak1" [] storeWithStreak1 9 true true (by decide)

/-- C6: once the transactional write created the record, notification
failures cannot undo it: for every combination of outcomes of the server
route and the local fallback (including both rejecting), `unlock` returns
the plain success object and the record is still stored. -/
theorem unlock_notification_failure_keeps_unlock (uid b : String) (inF : List String)
    (store : Store) (now : Nat)
    (hu : uid ≠ "") (hb : b ≠ "") (hf : b ∉ inF)
    (habs : store.lookup (uid, b) = none) :
    ∀ sOk lOk : Bool,
      (unlock uid b inF store now sOk lOk).res = { id := b }
        ∧ ((unlock uid b inF store now sOk lOk).store).lookup (uid, b)
            = some { unlockedAt := now, seen := false } := by
  intro sOk lOk
  have hm : ¬(uid = "" ∨ b = "") := by
    rintro (h | h) <;> [exact hu h; exact hb h]
  rw [unlock_eq_of_absent uid b inF store now sOk lOk hm hf habs]
  exact ⟨rfl, by simp [Store.lookup]⟩

theorem unlock_notification_failure_keeps_unlock_witness :
    (unlock "u1" "welcome" [] [] 4 false false).res = { id := "welcome" }
      ∧ ((unlock "u1" "welcome" [] [] 4 false false).store).lookup ("u1", "welcome")
          = some { unlockedAt := 4, seen := false } :=
  unlock_notification_failure_keeps_unlock "u1" "welcome" [] [] 4
    (by decide) (by decide) (List.not_mem_nil _) rfl false false

/-- C10: a falsy `uid` or `badgeId` makes `unlock` return
`{ id, skipped: "missing" }` with the store untouched and no notification
attempted. -/
theorem unlock_missing_args (uid b : String) (inF : List String) (store : Store)
    (now : Nat) (sOk lOk : Bool) (h : uid = "" ∨ b = "") :
    (unlock uid b inF store now sOk lOk).res = { id := b, skipped := some "missing" }
      ∧ (unlock uid b inF store now sOk lOk).store = store
      ∧ (unlock uid b inF store now sOk lOk).notifs = [] := by
  rw [unlock_eq_of_missing uid b inF store now sOk lOk h]
  exact ⟨rfl, rfl, rfl⟩

theorem unlock_missing_args_witness :
    (unlock "" "welcome" [] storeWithStreak1 7 true false).res
        = { id := "welcome", skipped := some "missing" }
      ∧ (unlock "" "welcome" [] storeWithStreak1 7 true false).store = storeWithStreak1
      ∧ (unlock "" "welcome" [] storeWithStreak1 7 true false).notifs = [] :=
  unlock_missing_args "" "welcome" [] storeWithStreak1 7 true false (Or.inl rfl)

/-! ## Savings (C3) -/

theorem jsRound_eq_floor (x : ℚ) : jsRound x = ⌊x + 1/2⌋ := by
  rw [jsRound, Rat.floor_def', ← Rat.floor_def]

theorem numOr_twenty_ne_zero (x : Option ℚ) : numOr x 20 ≠ 0 := by
  rcases x with _ | v
  · norm_num [numOr]
  · by_cases h : v = 0 <;> simp [numOr, h]

/-- C3 counterexample: with `cigarettes_per_pack = 0` (and 10 cigarettes/day
before at €5 a pack, streak 10) the code computes €25, not €0, because the
falsy pack size falls back to the default 20; and a negative `cost_per_pack`
passes the truthiness guard and yields a negative amount, not €0. -/
theorem computeSavings_zero_pack_counterexample :
    computeSavingsEuros (some profileZeroPack) 10 = 25
  ∧ (25 : Int) ≠ 0
  ∧ computeSavingsEuros (some profileNegCost) 10 = -25
  ∧ (-25 : Int) ≠ 0 := by
  refine ⟨?_, by decide, ?_, by decide⟩ <;>
  · simp only [computeSavingsEuros, profileZeroPack, profileNegCost, numOr,
      Option.bind, jsRound_eq_floor]
    norm_num

/-- C3 amended: the savings equal
`round(streakDays * (cigarettesPerDayBefore / cigarettesPerPack) * costPerPack)`
where a missing or zero `cigarettesPerPack` falls back to the default pack
size 20 (so `cigarettesPerPack = 0` yields the default-pack amount, never
`NaN` and never an error), and the amount is `0` exactly when
`cigarettesPerDayBefore` or `costPerPack` is missing or zero. -/
theorem computeSavings_eq_amended (p : Option Profile) (s : ℚ) :
    computeSavingsEuros p s = savingsAmountAmended p s := by
  have hp : numOr (p.bind (·.cigarettes_per_pack)) 20 ≠ 0 := numOr_twenty_ne_zero _
  unfold computeSavingsEuros savingsAmountAmended
  by_cases hc : numOr (p.bind (·.cigarettes_per_day_before)) 0 = 0 <;>
    by_cases hb : numOr (p.bind (·.cost_per_pack)) 0 = 0 <;>
      simp [hc, hb, hp]
  congr 1
  ring

/-! ## Daily-log write normalization (C7) -/

/-- C7 counterexample: a caller passing an explicit `smoke_free = false`
together with `cigarettes_smoked = 0` gets `smoke_free = false` stored while
the cigarette count is `0`, so the stored entry violates
`smoke_free == (cigarettes_smoked == 0)`. -/
theorem upsert_invariant_counterexample :
    (upsertDailyLog 0 { cigarettes_smoked := some 0, smoke_free := some false }).cigarettes_smoked
        = 0
  ∧ (upsertDailyLog 0 { cigarettes_smoked := some 0, smoke_free := some false }).smoke_free
        = false :=
  ⟨rfl, rfl⟩

/-- C7 amended: the write enforces only the implication direction stated in
the module header — `smoke_free` is stored `true` only when the stored
cigarette count is `0` (an explicit `true` with a positive count is forced to
`false`); when the caller passes no boolean at all, the stored flag is
exactly `cigarettes_smoked == 0`.  An explicit `false` is kept even with a
zero count. -/
theorem upsert_smoke_free_amended (date : Nat) (data : DailyLogInput) :
    ((upsertDailyLog date data).smoke_free
        && decide ((upsertDailyLog date data).cigarettes_smoked ≠ 0)) = false
  ∧ (∀ c : Option ℚ,
      (upsertDailyLog date { cigarettes_smoked := c, smoke_free := none }).smoke_free
        = decide
            ((upsertDailyLog date { cigarettes_smoked := c, smoke_free := none }).cigarettes_smoked
              = 0)) := by
  constructor
  · unfold upsertDailyLog
    cases data.smoke_free with
    | none => by_cases h : data.cigarettes_smoked.getD 0 = 0 <;> simp [h]
    | some b => by_cases h : data.cigarettes_smoked.getD 0 = 0 <;> simp [h]
  · intro c
    unfold upsertDailyLog
    simp

/-! ## Condition-table monotonicity (C8) -/

/-- C8: the streak-threshold conditions of the table are monotonic — a
snapshot satisfying the 30-day threshold also satisfies every lower one
(`streak1`, `streak2`, `streak3`, `streak5`, `streak10`, `streak20`), so a
snapshot meeting a higher streak threshold but not a lower one is
impossible. -/
theorem streak_thresholds_monotonic (m : Metrics)
    (h : condHolds m "streak30" = true) :
    condHolds m "streak1" = true ∧ condHolds m "streak2" = true
      ∧ condHolds m "streak3" = true ∧ condHolds m "streak5" = true
      ∧ condHolds m "streak10" = true ∧ condHolds m "streak20" = true := by
  simp only [condHolds, conditionsTable, lookupCond, String.reduceEq, if_true, if_false,
    reduceIte, Option.getD_some, decide_eq_true_eq] at h ⊢
  omega

theorem streak_thresholds_monotonic_witness :
    condHolds { streakDays := 31 } "streak1" = true
      ∧ condHolds { streakDays := 31 } "streak2" = true
      ∧ condHolds { streakDays := 31 } "streak3" = true
      ∧ condHolds { streakDays := 31 } "streak5" = true
      ∧ condHolds { streakDays := 31 } "streak10" = true
      ∧ condHolds { streakDays := 31 } "streak20" = true :=
  streak_thresholds_monotonic { streakDays := 31 } (by decide)

/-! ## Leaderboard ranker (C9) -/

instance (f : LbField) : IsTotal LeaderboardRow (fieldGE f) :=
  ⟨fun a b => le_total (fieldVal f b) (fieldVal f a)⟩

instance (f : LbField) : IsTrans LeaderboardRow (fieldGE f) :=
  ⟨fun _ _ _ hab hbc => le_trans hbc hab⟩

theorem rankLoop_eq_findIdx (uid : String) (l : List LeaderboardRow) (pos : Nat) :
    rankLoop uid l pos
      = (List.findIdx? (fun r => decide (docUid r = uid)) l pos).map (· + 1) := by
  induction l generalizing pos with
  | nil => simp [rankLoop]
  | cons r rs ih =>
    by_cases h : docUid r = uid
    · simp [rankLoop, List.findIdx?_cons, h]
    · rw [rankLoop, if_neg h, List.findIdx?_cons, if_neg (by simp [h])]
      exact ih (pos + 1)

theorem rankLoop_bounds (uid : String) (l : List LeaderboardRow) (pos k : Nat)
    (h : rankLoop uid l pos = some k) : pos < k ∧ k ≤ pos + l.length := by
  induction l generalizing pos with
  | nil => simp [rankLoop] at h
  | cons r rs ih =>
    rw [rankLoop] at h
    by_cases hd : docUid r = uid
    · rw [if_pos hd] at h
      obtain rfl : pos + 1 = k := Option.some.inj h
      simp
    · rw [if_neg hd] at h
      obtain ⟨h1, h2⟩ := ih (pos + 1) h
      refine ⟨by omega, ?_⟩
      simp only [List.length_cons]
      omega

/-- C9: the top-3 leaderboard rank is the 1-based position of the first row
whose uid matches the user among the first three rows of the row set ordered
descending by the queried field (the ordered set is a descending-sorted
permutation of the global row set), `null` when the user is not among them;
the result is always `null`, 1, 2 or 3. -/
theorem getLeaderboardRankTop3_spec (f : LbField) (uid : String)
    (rows : List LeaderboardRow) :
    getLeaderboardRankTop3 f uid rows = rankSpecTop3 f uid rows
  ∧ List.Sorted (fieldGE f) (sortDesc f rows)
  ∧ (sortDesc f rows).Perm rows
  ∧ (getLeaderboardRankTop3 f uid rows = none
      ∨ getLeaderboardRankTop3 f uid rows = some 1
      ∨ getLeaderboardRankTop3 f uid rows = some 2
      ∨ getLeaderboardRankTop3 f uid rows = some 3) := by
  refine ⟨?_, List.sorted_insertionSort (fieldGE f) rows,
    List.perm_insertionSort (fieldGE f) rows, ?_⟩
  · rw [getLeaderboardRankTop3, rankSpecTop3, rankLoop_eq_findIdx]
  · cases hr : getLeaderboardRankTop3 f uid rows with
    | none => exact Or.inl rfl
    | some k =>
      rw [getLeaderboardRankTop3] at hr
      obtain ⟨h1, h2⟩ := rankLoop_bounds uid _ 0 k hr
      have hlen : ((sortDesc f rows).take 3).length ≤ 3 := by
        rw [List.length_take]
        exact Nat.min_le_left 3 (sortDesc f rows).length
      have : k = 1 ∨ k = 2 ∨ k = 3 := by omega
      rcases this with rfl | rfl | rfl
      · exact Or.inr (Or.inl rfl)
      · exact Or.inr (Or.inr (Or.inl rfl))
      · exact Or.inr (Or.inr (Or.inr rfl))

/-! ## Streak computation (C2) -/

theorem maxDate?_cons (d : Nat) (ds : List Nat) :
    maxDate? (d :: ds) = optMax (some d) (maxDate? ds) := by
  cases h : maxDate? ds <;> simp [maxDate?, h, optMax]

theorem optMax_some_distrib (d : Nat) (A B : Option Nat) :
    optMax (optMax (some d) A) (optMax (some d) B) = optMax (some d) (optMax A B) := by
  rcases A with _ | a <;> rcases B with _ | b <;> simp [optMax] <;> omega

theorem optMax_some_left (d : Nat) (A B : Option Nat) :
    optMax (optMax (some d) A) B = optMax (some d) (optMax A B) := by
  rcases A with _ | a <;> rcases B with _ | b <;> simp [optMax] <;> omega

theorem optMax_some_mid (d : Nat) (A B : Option Nat) :
    optMax A (optMax (some d) B) = optMax (some d) (optMax A B) := by
  rcases A with _ | a <;> rcases B with _ | b <;> simp [optMax] <;> omega

/-- The maximum date matching a disjunction of filters is the merge of the
two separate query maxima (an element matching both counts once for the
maximum). -/
theorem maxDate?_filter_or (l : List DailyLog) (a b : DailyLog → Bool) :
    maxDate? ((l.filter (fun x => a x || b x)).map (·.date))
      = optMax (maxDate? ((l.filter a).map (·.date)))
               (maxDate? ((l.filter b).map (·.date))) := by
  induction l with
  | nil => rfl
  | cons x t ih =>
    cases ha : a x <;> cases hb : b x
    · simp only [List.filter_cons, ha, hb, Bool.or_self, Bool.false_eq_true, if_false]
      exact ih
    · simp only [List.filter_cons, ha, hb, Bool.false_or, Bool.false_eq_true, if_false,
        if_true, List.map_cons, maxDate?_cons, ih]
      exact (optMax_some_mid x.date _ _).symm
    · simp only [List.filter_cons, ha, hb, Bool.true_or, Bool.false_eq_true, if_false,
        if_true, List.map_cons, maxDate?_cons, ih]
      exact (optMax_some_left x.date _ _).symm
    · simp only [List.filter_cons, ha, hb, Bool.true_or, if_true, List.map_cons,
        maxDate?_cons, ih]
      exact (optMax_some_distrib x.date _ _).symm

theorem bool_or_and_and (a b c d : Bool) :
    ((a || b) && c && d) = (a && c && d || b && c && d) := by
  cases a <;> cases b <;> cases c <;> cases d <;> rfl

/-- The spec-side slip date is the merge of the code's two query maxima. -/
theorem slipSpec_eq (logs : List DailyLog) (quit today : Nat) :
    slipSpec logs quit today
      = optMax
          (maxDate? ((logs.filter (fun e =>
            !e.smoke_free && decide (quit ≤ e.date) && decide (e.date ≤ today))).map (·.date)))
          (maxDate? ((logs.filter (fun e =>
            decide (0 < e.cigarettes_smoked) && decide (quit ≤ e.date)
              && decide (e.date ≤ today))).map (·.date))) := by
  rw [slipSpec, ← maxDate?_filter_or]
  have hfun : (fun e : DailyLog =>
      (!e.smoke_free || decide (0 < e.cigarettes_smoked)) && decide (quit ≤ e.date)
        && decide (e.date ≤ today))
    = (fun e : DailyLog =>
      (!e.smoke_free && decide (quit ≤ e.date) && decide (e.date ≤ today))
        || (decide (0 < e.cigarettes_smoked) && decide (quit ≤ e.date)
            && decide (e.date ≤ today))) :=
    funext fun e => bool_or_and_and _ _ _ _
  rw [hfun]

/-- C2: with no quit date the streak is `{0, null, null}`; otherwise the
last slip date is the maximum log date in `[quitDate, today]` whose entry has
`smoke_free == false` OR `cigarettes_smoked > 0`, the streak starts at the
quit date when no slip exists and at the day after the last slip otherwise,
and the current streak is `max(0, today − start)` whole days.  In
particular, with quit date 2024-01-01, a slip (`cigarettes_smoked = 2`) on
2024-01-05 and evaluation on 2024-01-10, the result is start 2024-01-06,
last slip 2024-01-05, streak 4. -/
theorem computeStreak_spec (logs : List DailyLog) (quit today : Nat) :
    computeStreakFromQuit logs none today
        = { current_streak_days := 0, streak_start_date := none, last_slip_date := none }
  ∧ (computeStreakFromQuit logs (some quit) today).last_slip_date = slipSpec logs quit today
  ∧ (computeStreakFromQuit logs (some quit) today).streak_start_date
      = some (match slipSpec logs quit today with
              | none => quit
              | some s => s + 1)
  ∧ (computeStreakFromQuit logs (some quit) today).current_streak_days
      = max 0 ((today : Int)
          - (((computeStreakFromQuit logs (some quit) today).streak_start_date).getD quit : Int))
  ∧ computeStreakFromQuit exampleLogs (some (isoDay 2024 1 1)) (isoDay 2024 1 10)
      = { current_streak_days := 4,
          streak_start_date := some (isoDay 2024 1 6),
          last_slip_date := some (isoDay 2024 1 5) } := by
  refine ⟨rfl, ?_, ?_, ?_, by decide⟩
  · simp only [computeStreakFromQuit]
    exact (slipSpec_eq logs quit today).symm
  · simp only [computeStreakFromQuit]
    rw [slipSpec_eq logs quit today]
  · simp only [computeStreakFromQuit, Option.getD_some]

/-! ## Evaluator error handling (C4) -/

theorem evalWithChallenges_rank_error (env : EvalEnv) (profile : Option Profile)
    (sd : Int) (lc : Nat) (ai hyp : ℚ) (sav hr : Int) (cc : Nat)
    (f : LbField) (e : JsError) (h : env.rankRes f = .error e) :
    evalWithChallenges env profile sd lc ai hyp sav hr cc = [] := by
  rw [evalWithChallenges]
  cases hp : env.rankRes .points with
  | error _ => rfl
  | ok p =>
    cases hs : env.rankRes .streak with
    | error _ => rfl
    | ok s =>
      cases hv : env.rankRes .saved with
      | error _ => rfl
      | ok v =>
        cases f with
        | points => rw [h] at hp; exact Except.noConfusion hp
        | streak => rw [h] at hs; exact Except.noConfusion hs
        | saved => rw [h] at hv; exact Except.noConfusion hv

/-- C4 counterexample: in an evaluation pass where the `welcome` unlock
completes and the user then signs out (the next `isUnlocked` read rejects
with `permission-denied`), `evaluateAndUnlockBadges` returns `["welcome"]` —
it exits early and quietly, but the returned unlock list is not empty. -/
theorem evaluate_midloop_permission_counterexample :
    evaluateAndUnlockBadges "u1" signOutMidLoopEnv = ["welcome"]
      ∧ (["welcome"] : List String) ≠ [] :=
  ⟨by decide, by decide⟩

/-- C4 amended: a permission or authentication failure makes the pass exit
early without raising an error, returning the unlocks already completed in
this pass — which is the empty list whenever the failure precedes the first
unlock: authenticated-uid mismatch, and rejection of any pre-loop read (the
profile, the daily logs, the log count, the challenge count with a
`permission-denied` code, or any leaderboard-rank read) all yield `[]`,
while a permission-denied rejection inside the condition loop returns
exactly the accumulated unlock list. -/
theorem evaluate_permission_failure_amended :
    (∀ (uid : String) (env : EvalEnv), env.authUid ≠ some uid →
        evaluateAndUnlockBadges uid env = [])
  ∧ (∀ (uid : String) (env : EvalEnv) (e : JsError), env.profileRes = .error e →
        evaluateAndUnlockBadges uid env = [])
  ∧ (∀ (uid : String) (env : EvalEnv) (e : JsError), env.dailyLogsRes = .error e →
        evaluateAndUnlockBadges uid env = [])
  ∧ (∀ (uid : String) (env : EvalEnv) (e : JsError), env.countLogsRes = .error e →
        evaluateAndUnlockBadges uid env = [])
  ∧ (∀ (uid : String) (env : EvalEnv) (e : JsError), env.challengeRes = .error e →
        e.code = some "permission-denied" → evaluateAndUnlockBadges uid env = [])
  ∧ (∀ (uid : String) (env : EvalEnv) (e : JsError) (f : LbField),
        env.rankRes f = .error e → evaluateAndUnlockBadges uid env = [])
  ∧ (∀ (env : EvalEnv) (id : String) (check : Bool) (rest : List (String × Bool))
        (acc : List String) (e : JsError),
        env.isUnlockedRes id = .error e → isPermissionDenied e = true →
        runConditions env ((id, check) :: rest) acc = acc)
  ∧ (∀ (env : EvalEnv) (id : String) (rest : List (String × Bool))
        (acc : List String) (e : JsError),
        env.isUnlockedRes id = .ok false → env.unlockRes id = .error e →
        isPermissionDenied e = true →
        runConditions env ((id, true) :: rest) acc = acc) := by
  refine ⟨?_, ?_, ?_, ?_, ?_, ?_, ?_, ?_⟩
  · intro uid env h
    rw [evaluateAndUnlockBadges, if_pos (Or.inr h)]
  · intro uid env e h
    by_cases hc : uid = "" ∨ env.authUid ≠ some uid
    · rw [evaluateAndUnlockBadges, if_pos hc]
    · rw [evaluateAndUnlockBadges, if_neg hc, h]
  · intro uid env e h
    by_cases hc : uid = "" ∨ env.authUid ≠ some uid
    · rw [evaluateAndUnlockBadges, if_pos hc]
    · rw [evaluateAndUnlockBadges, if_neg hc]
      cases hp : env.profileRes with
      | error _ => rfl
      | ok profile => rw [h]
  · intro uid env e h
    by_cases hc : uid = "" ∨ env.authUid ≠ some uid
    · rw [evaluateAndUnlockBadges, if_pos hc]
    · rw [evaluateAndUnlockBadges, if_neg hc]
      cases hp : env.profileRes with
      | error _ => rfl
      | ok profile =>
        cases hl : env.dailyLogsRes with
        | error _ => rfl
        | ok logs => rw [h]
  · intro uid env e h hcode
    by_cases hc : uid = "" ∨ env.authUid ≠ some uid
    · rw [evaluateAndUnlockBadges, if_pos hc]
    · rw [evaluateAndUnlockBadges, if_neg hc]
      cases hp : env.profileRes with
      | error _ => rfl
      | ok profile =>
        cases hl : env.dailyLogsRes with
        | error _ => rfl
        | ok logs =>
          cases hn : env.countLogsRes with
          | error _ => rfl
          | ok n =>
            rw [h]
            dsimp only
            rw [if_pos hcode]
  · intro uid env e f h
    by_cases hc : uid = "" ∨ env.authUid ≠ some uid
    · rw [evaluateAndUnlockBadges, if_pos hc]
    · rw [evaluateAndUnlockBadges, if_neg hc]
      cases hp : env.profileRes with
      | error _ => rfl
      | ok profile =>
        cases hl : env.dailyLogsRes with
        | error _ => rfl
        | ok logs =>
          cases hn : env.countLogsRes with
          | error _ => rfl
          | ok n =>
            cases hch : env.challengeRes with
            | error e' =>
              dsimp only
              by_cases hcode : e'.code = some "permission-denied"
              · rw [if_pos hcode]
              · rw [if_neg hcode]
                exact evalWithChallenges_rank_error env _ _ _ _ _ _ _ _ f e h
            | ok cc =>
              exact evalWithChallenges_rank_error env _ _ _ _ _ _ _ _ f e h
  · intro env id check rest acc e h hp
    rw [runConditions, h]
    dsimp only
    rw [if_pos hp]
  · intro env id rest acc e h1 h2 hp
    rw [runConditions, h1]
    dsimp only
    rw [if_pos (show (!false && true) = true from rfl), h2]
    dsimp only
    rw [if_pos hp]

theorem evaluate_permission_failure_amended_witness :
    evaluateAndUnlockBadges "u1" profileErrorEnv = []
      ∧ runConditions signOutMidLoopEnv [("streak1", true)] ["welcome"] = ["welcome"] :=
  ⟨evaluate_permission_failure_amended.2.1 "u1" profileErrorEnv
      { code := some "permission-denied" } rfl,
   evaluate_permission_failure_amended.2.2.2.2.2.2.1 signOutMidLoopEnv "streak1" true []
      ["welcome"] { code := some "permission-denied" } rfl (by decide)⟩

end QuitCoach
